import Mathlib

/-!
Shallow embedding of the u-root `ps` core (Go): the per-process stat-record
decoder `readStat`, the attribute enrichers `getCtty` / `getTime` /
`longCmdLine`, the `Parse` wrapper and the table builder `LoadTable` built on
`filepath.Walk`.  Strings are modelled as Lean strings (lists of characters);
the source slices bytes, which coincides on the ASCII data these records hold.
Go `int` arithmetic is modelled with unbounded `Int` together with Go's
truncated division and remainder; no claim involves 64-bit overflow.
Panics of the Go runtime (reflect field index out of range, slice bounds,
nil-pointer dereference, failed ioctl) are modelled as an explicit `crash`
outcome.  Logging side effects are not modelled.
-/

set_option maxRecDepth 10000

/-! ## String helpers (byte slicing of the source, on character lists) -/

def strTake (s : String) (n : Nat) : String := ⟨s.data.take n⟩

def strDrop (s : String) (n : Nat) : String := ⟨s.data.drop n⟩

def strLen (s : String) : Nat := s.data.length

/-- `strings.Split(s, " ")` of the source: split on every single occurrence of
the separator character; the empty string splits to one empty token. -/
def splitChars (c : Char) : List Char → List (List Char)
  | [] => [[]]
  | x :: xs =>
    match splitChars c xs with
    | [] => [[]]
    | t :: ts => if x = c then [] :: t :: ts else (x :: t) :: ts

def splitOnSpace (s : String) : List String :=
  (splitChars ' ' s.data).map (fun l => ⟨l⟩)

/-! ## The `process` struct

The Go struct has 54 declared string fields; the reflection loop in
`readStat` writes token `i` into declared field `i`, so the faithful model is
the ordered list of the 54 field slots.  Named accessors recover the fields
the rest of the code reads.  Declaration order (0-based): 0 Pid, 1 Cmd,
2 State, 3 Ppid, 4 Pgrp, 5 Sid, 6 TTYNr, 7 TTYPgrp, 8 Flags, ... ,
13 Utime, 14 Stime, ... , 51 ExitCode, 52 Ctty, 53 Time. -/

structure process where
  fields : List String
deriving DecidableEq, Repr

def numFields : Nat := 54

/-- Number of fields the stat schema actually supplies (indices 0..51);
`Ctty` and `Time` are the two extra members not parsed from stat. -/
def statSchemaFields : Nat := 52

def process.Pid (p : process) : String := p.fields.getD 0 ""

def process.Cmd (p : process) : String := p.fields.getD 1 ""

def process.TTYPgrp (p : process) : String := p.fields.getD 7 ""

def process.Utime (p : process) : String := p.fields.getD 13 ""

def process.Stime (p : process) : String := p.fields.getD 14 ""

def process.Ctty (p : process) : String := p.fields.getD 52 ""

def process.Time (p : process) : String := p.fields.getD 53 ""

def setField (p : process) (i : Nat) (v : String) : process := ⟨p.fields.set i v⟩

/-! ## The process pseudo-filesystem, as the code observes it

`stat`, `fd0` and `cmdline` give, per process identifier, the content of
`/proc/PID/stat`, the target of the `/proc/PID/fd/0` symbolic link and the
content of `/proc/PID/cmdline`; `none` models a failing read.  `entries` is
the directory listing of `/proc` (`filepath.Walk` sorts it by name before
visiting).  `termCols` models the `TIOCGWINSZ` ioctl, `none` meaning the
syscall fails (which the source turns into a panic). -/

structure DirEnt where
  name : String
  isDir : Bool
deriving DecidableEq, Repr

structure ProcFs where
  entries : List DirEnt
  stat : String → Option String
  fd0 : String → Option String
  cmdline : String → Option String
  termCols : Option Nat

/-- Outcome of a Go call: normal value, returned `error`, or runtime panic. -/
inductive GoResult (α : Type) where
  | ok (val : α)
  | goErr (msg : String)
  | crash (msg : String)
deriving DecidableEq, Repr

def statErrMsg (pid : String) : String :=
  "open /proc/" ++ pid ++ "/stat: no such file or directory"

def cmdlineErrMsg (pid : String) : String :=
  "open /proc/" ++ pid ++ "/cmdline: no such file or directory"

def reflectCrashMsg : String := "reflect: Field index out of range"

def sliceCrashMsg : String := "slice bounds out of range"

/-! ## strconv.Atoi as used (its error is discarded, so failure reads as 0) -/

def digitsToNat (l : List Char) : Nat :=
  l.foldl (fun n c => n * 10 + (c.toNat - 48)) 0

def allDigits (l : List Char) : Bool := !l.isEmpty && l.all Char.isDigit

/-- `strconv.Atoi` with the error ignored, as lines 202-203 of the source do:
an optional sign followed by one or more digits parses, anything else is 0. -/
def goAtoi (s : String) : Int :=
  match s.data with
  | '-' :: rest => if allDigits rest then -(digitsToNat rest : Int) else 0
  | '+' :: rest => if allDigits rest then (digitsToNat rest : Int) else 0
  | l => if allDigits l then (digitsToNat l : Int) else 0

def USER_HZ : Nat := 100

/-- Go `fmt.Sprintf("%02d", n)`: decimal representation, zero padded on the
left to width two (the sign counts toward the width). -/
def sprintf02 (n : Int) : String :=
  let s := toString n
  if strLen s < 2 then "0" ++ s else s

/-- Lines 206-211 of `getTime`: jiffies to truncated seconds at `USER_HZ`,
then zero-padded `hh:mm:ss` with unbounded hours. -/
def timeOfTicks (jiffies : Int) : String :=
  let tsecs := jiffies.tdiv (USER_HZ : Int)
  let secs := tsecs.tmod 60
  let mins := (tsecs.tdiv 60).tmod 60
  let hrs := tsecs.tdiv 3600
  sprintf02 hrs ++ ":" ++ sprintf02 mins ++ ":" ++ sprintf02 secs

/-- `process.getTime`: sum of the parsed `Utime` and `Stime` tick fields,
formatted. -/
def getTime (p : process) : String :=
  timeOfTicks (goAtoi p.Utime + goAtoi p.Stime)

/-- `process.getCtty`: readlink of `fd/0`; on error `"?"`; else if `TTYPgrp`
differs from `"-1"`, the target with `"/dev/"` stripped when the target is
longer than five bytes and starts with it; else `"?"`. -/
def getCtty (fs : ProcFs) (p : process) : String :=
  match fs.fd0 p.Pid with
  | none => "?"
  | some tty =>
    if p.TTYPgrp ≠ "-1" then
      if 5 < strLen tty ∧ strTake tty 5 = "/dev/" then strDrop tty 5 else tty
    else "?"

/-- `process.longCmdLine`: the raw content of `/proc/PID/cmdline`, or the
read error. -/
def longCmdLine (fs : ProcFs) (p : process) : GoResult String :=
  match fs.cmdline p.Pid with
  | none => .goErr (cmdlineErrMsg p.Pid)
  | some b => .ok b

/-- Line 115 of the source: `cmd[1 : len(cmd)-1]`, dropping exactly the first
and the last byte. -/
def stripCmd (cmd : String) : String := ⟨(cmd.data.drop 1).dropLast⟩

/-- The zero-valued struct with tokens written into the leading field slots,
as the reflection loop of lines 106-110 leaves it when it terminates. -/
def mkRecord (tokens : List String) : process :=
  ⟨tokens ++ List.replicate (numFields - tokens.length) ""⟩

/-- Lines 103-115 of `readStat`: assign token `i` to struct field `i` (the
loop runs over the token count; `reflect` panics as soon as `i` reaches 54),
then fill `Time` and `Ctty`, and strip the command token's first and last
byte (a slice-bounds panic when it is shorter than two bytes). -/
def statBody (fs : ProcFs) (tokens : List String) : GoResult process :=
  if numFields < tokens.length then .crash reflectCrashMsg
  else
    let p0 := mkRecord tokens
    let p1 := setField p0 53 (getTime p0)
    let p2 := setField p1 52 (getCtty fs p1)
    if strLen p2.Cmd < 2 then .crash sliceCrashMsg
    else .ok (setField p2 1 (stripCmd p2.Cmd))

/-- `process.readStat`: read and split the stat line, run the field
assignment and the enrichment, and under the `-x` flag replace the command
with a non-empty long command line, aborting on its read error. -/
def readStat (fs : ProcFs) (flagsX : Bool) (pid : String) : GoResult process :=
  match fs.stat pid with
  | none => .goErr (statErrMsg pid)
  | some content =>
    match statBody fs (splitOnSpace content) with
    | .crash m => .crash m
    | .goErr m => .goErr m
    | .ok p3 =>
      if flagsX then
        match longCmdLine fs p3 with
        | .goErr m => .goErr m
        | .crash m => .crash m
        | .ok cl => .ok (if cl ≠ "" then setField p3 1 cl else p3)
      else .ok p3

structure Process where
  proc : process
deriving DecidableEq, Repr

/-- `Process.Parse`: delegates to `readStat`. -/
def Parse (fs : ProcFs) (flagsX : Bool) (pid : String) : GoResult Process :=
  match readStat fs flagsX pid with
  | .ok p => .ok ⟨p⟩
  | .goErr m => .goErr m
  | .crash m => .crash m

/-- Matching of the anchored pattern `^[0-9]+$` (constant `allProc`): the
whole name is one or more decimal digits. -/
def matchAllProc (s : String) : Bool :=
  !s.data.isEmpty && s.data.all Char.isDigit

/-! ## The table builder over `filepath.Walk`

`filepath.Walk` of the Go of this source visits the root, then every sorted
child; the callback (lines 238-257) returns `nil` on the root, aborts on a
`Parse` error, and otherwise returns `filepath.SkipDir`.  `SkipDir` returned
on a directory child suppresses descent and the walk continues; returned on a
non-directory child it stops the walk, and `Walk` hands `SkipDir` itself back
to the caller - exactly the value whose message line 263 compares against.
A `Parse` error aborts the walk with that error whatever the child is. -/

def skipDirMsg : String := "skip this directory"

def nilDerefMsg : String := "invalid memory address or nil pointer dereference"

def ioctlCrashMsg : String := "ioctl TIOCGWINSZ failed"

inductive WalkOut where
  | ret (e : Option String)
  | crash (msg : String)
deriving DecidableEq, Repr

def insertEnt (e : DirEnt) : List DirEnt → List DirEnt
  | [] => [e]
  | x :: xs => if (compare e.name x.name).isLE then e :: x :: xs else x :: insertEnt e xs

/-- `filepath.Walk` reads the directory names sorted lexicographically. -/
def sortEnts : List DirEnt → List DirEnt
  | [] => []
  | e :: es => insertEnt e (sortEnts es)

/-- The visits of the sorted children of `/proc`, accumulating the table as
the callback appends to it. -/
def walkChildren (fs : ProcFs) (flagsX : Bool) :
    List DirEnt → List Process → List Process × WalkOut
  | [], acc => (acc, .ret none)
  | e :: rest, acc =>
    if matchAllProc e.name then
      match Parse fs flagsX e.name with
      | .crash m => (acc, .crash m)
      | .goErr m => (acc, .ret (some m))
      | .ok p =>
        if e.isDir then walkChildren fs flagsX rest (acc ++ [p])
        else (acc ++ [p], .ret (some skipDirMsg))
    else
      if e.isDir then walkChildren fs flagsX rest acc
      else (acc, .ret (some skipDirMsg))

inductive LoadOut where
  | ok
  | errOut (msg : String)
  | crash (msg : String)
deriving DecidableEq, Repr

/-- `ProcessTable.LoadTable`: run the walk, then query the terminal size
(a failed ioctl panics in `terminalSize`), then compare `err.Error()` with
the `SkipDir` message - a nil-pointer dereference when the walk returned a
nil error.  The first component is the table the callback accumulated. -/
def LoadTable (fs : ProcFs) (flagsX : Bool) : List Process × LoadOut :=
  match walkChildren fs flagsX (sortEnts fs.entries) [] with
  | (t, .crash m) => (t, .crash m)
  | (t, .ret e) =>
    match fs.termCols with
    | none => (t, .crash ioctlCrashMsg)
    | some _ =>
      match e with
      | none => (t, .crash nilDerefMsg)
      | some m => if m = skipDirMsg then (t, .ok) else (t, .errOut m)

/-! ## Definitions written from the spec's words (for refinement claims) -/

/-- Modelled from the spec: "a leading `/dev/` prefix is stripped exactly
once" - the strip with no length guard, as the claim of property C4 states
it. -/
def spec_stripDevOnce (t : String) : String :=
  if strTake t 5 = "/dev/" then strDrop t 5 else t

/-- Modelled from the spec: terminal resolution as claim C4 states it - the
sentinel exactly when the link is unreadable or the terminal-group id is
`"-1"`, otherwise the target with the leading `/dev/` stripped once. -/
def spec_cttyClaim (fs : ProcFs) (p : process) : String :=
  match fs.fd0 p.Pid with
  | none => "?"
  | some tty => if p.TTYPgrp = "-1" then "?" else spec_stripDevOnce tty

/-- Terminal resolution as claim C4 reads after the amendment: the strip
happens only when the target is strictly longer than `/dev/`. -/
def spec_cttyAmended (fs : ProcFs) (p : process) : String :=
  match fs.fd0 p.Pid with
  | none => "?"
  | some tty =>
    if p.TTYPgrp = "-1" then "?"
    else if 5 < strLen tty ∧ strTake tty 5 = "/dev/" then strDrop tty 5 else tty

/-- Modelled from the spec (CPU time formatting): parse the two tick fields
as integers with unparseable values degrading to zero, sum, divide by the
fixed ticks-per-second constant 100, format zero-padded `HH:MM:SS` with no
upper bound on the hours component. -/
def spec_formatCPUTime (utimeField stimeField : String) : String :=
  let ticks := goAtoi utimeField + goAtoi stimeField
  let totalSecs := ticks.tdiv 100
  sprintf02 (totalSecs.tdiv 3600) ++ ":" ++
    sprintf02 ((totalSecs.tdiv 60).tmod 60) ++ ":" ++ sprintf02 (totalSecs.tmod 60)

/-! ## Concrete fixtures for the claims -/

/-- The decoded record a three-token stat line `PID (CMD) ST` produces when
the link of `fd/0` is unreadable: the three leading fields, 49 silently
defaulted empty fields, the `"?"` sentinel and the zero time. -/
def mkStat3 (pid cmd st : String) : process :=
  ⟨[pid, cmd, st] ++ List.replicate 49 "" ++ ["?", "00:00:00"]⟩

/-- A record carrying only the two tick fields (indices 13 and 14). -/
def mkUS (u s : String) : process := ⟨List.replicate 13 "" ++ [u, s]⟩

def fsC1 : ProcFs :=
  ⟨[], fun pid => if pid = "7" then some "7 (sh) S"
        else if pid = "9" then some "9" else none,
   fun _ => none, fun _ => none, some 80⟩

def fsC2 : ProcFs :=
  ⟨[⟨"1", true⟩, ⟨"2", true⟩],
   fun pid => if pid = "2" then some "2 (sh) S" else none,
   fun _ => none, fun _ => none, some 80⟩

def pC4 : process := ⟨["9", "(x)", "S", "", "", "", "", "0"]⟩

def fsC4 : ProcFs :=
  ⟨[], fun _ => none, fun pid => if pid = "9" then some "/dev/" else none,
   fun _ => none, some 80⟩

def fsC5 : ProcFs :=
  ⟨[], fun pid => if pid = "3" then some "3 (sh) S" else none,
   fun _ => none, fun _ => none, some 80⟩

def fsC7 : ProcFs :=
  ⟨[⟨"1", true⟩, ⟨"42", true⟩, ⟨"abc", true⟩, ⟨"7x", true⟩, ⟨"version", false⟩],
   fun pid => some (pid ++ " (cmd) S"), fun _ => none, fun _ => none, some 80⟩

def stC8 (pid : String) : Option String :=
  if pid = "5" then some "5 (sh) S" else none

def fdNone (_ : String) : Option String := none

def clNone (_ : String) : Option String := none

def clEmpty (_ : String) : Option String := some ""

def clFull (_ : String) : Option String := some "/bin/sh -i"

def fsC8a : ProcFs := ⟨[], stC8, fdNone, clNone, some 80⟩

def fsC8b : ProcFs := ⟨[], stC8, fdNone, clEmpty, some 80⟩

def fsC8c : ProcFs := ⟨[], stC8, fdNone, clFull, some 80⟩

def fsC9 : ProcFs := ⟨[⟨"sys", true⟩], fun _ => none, fun _ => none, fun _ => none, some 80⟩

/-- A stat line of 55 space-separated tokens (a full 52-field record whose
command name carries three embedded spaces inflates the split like this). -/
def content55 : String := String.intercalate " " (List.replicate 55 "x")

def fsC10 : ProcFs :=
  ⟨[], fun pid => if pid = "8" then some content55 else none,
   fun _ => none, fun _ => none, some 80⟩

/-! ## Shared helper lemmas -/

/-- `readStat` under the `-x` flag is the flagless decode followed by the
long-command-line step. -/
theorem readStat_flagx_decomp (fs : ProcFs) (pid : String) :
    readStat fs true pid =
      match readStat fs false pid with
      | .ok p =>
        (match longCmdLine fs p with
         | .goErr m => .goErr m
         | .crash m => .crash m
         | .ok cl => .ok (if cl ≠ "" then setField p 1 cl else p))
      | .goErr m => .goErr m
      | .crash m => .crash m := by
  cases hs : fs.stat pid with
  | none => simp [readStat, hs]
  | some content =>
    cases hb : statBody fs (splitOnSpace content) with
    | ok p => simp [readStat, hs, hb]
    | goErr m => simp [readStat, hs, hb]
    | crash m => simp [readStat, hs, hb]

/-! ## The claims -/

/-- C1 (code_bug): the spec requires decoding to fail explicitly with a
malformed-record error on a record with fewer tokens than the schema's
field count; the code instead loops over the token count, so the
three-token record `"7 (sh) S"` decodes successfully with fields 3..51
silently defaulted to the empty string, and a one-token record crashes in
the command strip instead of returning an error. -/
theorem claimC1_observed :
    (splitOnSpace "7 (sh) S").length < statSchemaFields ∧
    readStat fsC1 false "7" = .ok (mkStat3 "7" "sh" "S") ∧
    (mkStat3 "7" "sh" "S").Utime = "" ∧
    readStat fsC1 false "9" = .crash sliceCrashMsg := by decide

/-- C2 (code_bug): the walk callback returns the `Parse` error, which aborts
`filepath.Walk`; with entries `"1"` (unreadable stat) and `"2"` (valid),
the fetch of `"2"` would succeed, yet `LoadTable` returns the `"1"` error
with an empty table instead of logging, skipping `"1"` and keeping `"2"`. -/
theorem claimC2_observed :
    Parse fsC2 false "2" = .ok ⟨mkStat3 "2" "sh" "S"⟩ ∧
    LoadTable fsC2 false = ([], .errOut (statErrMsg "1")) := by decide

/-- C3 (corrected, counterexample): formatting tick total 359 yields
`"00:00:03"`, not `"00:05:59"` as the claim states - the code divides the
tick total by the 100 ticks-per-second constant before formatting. -/
theorem claimC3_counterexample :
    getTime (mkUS "359" "0") = "00:00:03" ∧
    getTime (mkUS "359" "0") ≠ "00:05:59" := by decide

/-- C3 (corrected, amended): the formatter is a deterministic function of
the tick total (the sum of the parsed tick fields), and the fixed points
hold at the tick totals the 100 ticks-per-second divisor dictates:
0 gives `"00:00:00"`, 35900 gives `"00:05:59"`, and 36000000 gives an hours
component of 100 with no truncation. -/
theorem claimC3_amended :
    (∀ p q : process,
        goAtoi p.Utime + goAtoi p.Stime = goAtoi q.Utime + goAtoi q.Stime →
        getTime p = getTime q) ∧
    getTime (mkUS "0" "0") = "00:00:00" ∧
    getTime (mkUS "35900" "0") = "00:05:59" ∧
    getTime (mkUS "36000000" "0") = "100:00:00" :=
  ⟨fun p q h => by unfold getTime; rw [h], by decide, by decide, by decide⟩

/-- Witness for C3: the determinism part applied at two records with the
same tick total 200. -/
theorem claimC3_witness :
    getTime (mkUS "100" "100") = getTime (mkUS "200" "0") :=
  claimC3_amended.1 (mkUS "100" "100") (mkUS "200" "0") (by decide)

/-- C4 (corrected, counterexample): for a readable link whose target is
exactly `"/dev/"` and a terminal-group id other than `"-1"`, the code
returns `"/dev/"` unstripped (the guard needs the target strictly longer
than five bytes), while the claim's strip-once reading yields `""`. -/
theorem claimC4_counterexample :
    getCtty fsC4 pC4 = "/dev/" ∧ spec_cttyClaim fsC4 pC4 = "" ∧
    getCtty fsC4 pC4 ≠ spec_cttyClaim fsC4 pC4 := by decide

/-- C4 (corrected, amended): resolution returns exactly `"?"` when the link
is unreadable or the terminal-group id is `"-1"`, never propagating an
error; otherwise the target with the leading `"/dev/"` stripped exactly
once, the strip applying only when the target is strictly longer than
`"/dev/"` (a target equal to `"/dev/"` is returned unchanged). -/
theorem claimC4_amended :
    ∀ (fs : ProcFs) (p : process), getCtty fs p = spec_cttyAmended fs p := by
  intro fs p
  unfold getCtty spec_cttyAmended
  cases fs.fd0 p.Pid with
  | none => rfl
  | some tty =>
    by_cases hp : p.TTYPgrp = "-1"
    · simp [hp]
    · simp [hp]

/-- C5 (confirmed): for every command token wrapped in the delimiter pair,
the decoder strips exactly the outermost leading and trailing delimiter
characters, so delimiters embedded mid-name survive verbatim; the token
`"(sh)"` decodes to command name `"sh"`. -/
theorem claimC5 :
    (∀ s : List Char, stripCmd ⟨'(' :: (s ++ [')'])⟩ = ⟨s⟩) ∧
    readStat fsC5 false "3" = .ok (mkStat3 "3" "sh" "S") ∧
    (mkStat3 "3" "sh" "S").Cmd = "sh" :=
  ⟨fun s => by simp [stripCmd], by decide, by decide⟩

/-- C6 (confirmed): CPU time is the two tick fields parsed as integers with
unparseable values degrading to zero, summed, divided by the fixed constant
100 and formatted as zero-padded `HH:MM:SS` with unbounded hours;
`Utime="150"`, `Stime="50"` gives `"00:00:02"`. -/
theorem claimC6 :
    (∀ p : process, getTime p = spec_formatCPUTime p.Utime p.Stime) ∧
    getTime (mkUS "150" "50") = "00:00:02" ∧
    getTime (mkUS "abc" "150") = "00:00:01" ∧
    getTime (mkUS "0" "36000000") = "100:00:00" :=
  ⟨fun _ => rfl, by decide, by decide, by decide⟩

/-- C7 (confirmed): an entry is treated as a process identifier iff its
entire name is one or more decimal digits; of the entries `"1"`, `"42"`,
`"abc"`, `"7x"` exactly `"1"` and `"42"` are fetched and appear in the
table once each, and a non-matching entry is never fetched. -/
theorem claimC7 :
    LoadTable fsC7 false = ([⟨mkStat3 "1" "cmd" "S"⟩, ⟨mkStat3 "42" "cmd" "S"⟩], .ok) ∧
    (∀ s : String, matchAllProc s = true ↔ (s.data ≠ [] ∧ ∀ c ∈ s.data, c.isDigit = true)) ∧
    (∀ (fs : ProcFs) (x : Bool) (e : DirEnt) (rest : List DirEnt) (acc : List Process),
        matchAllProc e.name = false → e.isDir = true →
        walkChildren fs x (e :: rest) acc = walkChildren fs x rest acc) ∧
    (∀ (fs : ProcFs) (x : Bool) (e : DirEnt) (rest : List DirEnt) (acc : List Process),
        matchAllProc e.name = false → e.isDir = false →
        walkChildren fs x (e :: rest) acc = (acc, .ret (some skipDirMsg))) := by
  refine ⟨by decide, ?_, ?_, ?_⟩
  · intro s
    simp [matchAllProc, List.all_eq_true]
  · intro fs x e rest acc h1 h2
    simp [walkChildren, h1, h2]
  · intro fs x e rest acc h1 h2
    simp [walkChildren, h1, h2]

/-- Witness for C7: the skip behaviour applied at the non-matching entries
`"abc"` (a directory) and `"version"` (not a directory). -/
theorem claimC7_witness :
    walkChildren fsC7 false [⟨"abc", true⟩] [] = walkChildren fsC7 false [] [] ∧
    walkChildren fsC7 false [⟨"version", false⟩] [] = ([], .ret (some skipDirMsg)) :=
  ⟨claimC7.2.2.1 fsC7 false ⟨"abc", true⟩ [] [] (by decide) rfl,
   claimC7.2.2.2 fsC7 false ⟨"version", false⟩ [] [] (by decide) rfl⟩

/-- C8 (confirmed): with the long-command option on, a failing read of the
argument-vector record aborts the fetch with that error, a readable but
empty record leaves the short command name in place, and with the option
off the argument-vector record is never read (the result does not depend
on it). -/
theorem claimC8 :
    (∀ (fs : ProcFs) (pid : String) (p : process),
        readStat fs false pid = .ok p → fs.cmdline p.Pid = none →
        readStat fs true pid = .goErr (cmdlineErrMsg p.Pid)) ∧
    (∀ (fs : ProcFs) (pid : String) (p : process),
        readStat fs false pid = .ok p → fs.cmdline p.Pid = some "" →
        readStat fs true pid = .ok p) ∧
    (∀ (ents1 ents2 : List DirEnt) (st fd cl1 cl2 : String → Option String)
        (tc1 tc2 : Option Nat) (pid : String),
        readStat ⟨ents1, st, fd, cl1, tc1⟩ false pid
          = readStat ⟨ents2, st, fd, cl2, tc2⟩ false pid) := by
  refine ⟨?_, ?_, ?_⟩
  · intro fs pid p h hc
    rw [readStat_flagx_decomp, h]
    simp [longCmdLine, hc]
  · intro fs pid p h hc
    rw [readStat_flagx_decomp, h]
    simp [longCmdLine, hc]
  · intro ents1 ents2 st fd cl1 cl2 tc1 tc2 pid
    rfl

/-- Witness for C8: the three parts applied at a concrete record with an
unreadable, an empty and a differing argument-vector record. -/
theorem claimC8_witness :
    readStat fsC8a true "5" = .goErr (cmdlineErrMsg "5") ∧
    readStat fsC8b true "5" = .ok (mkStat3 "5" "sh" "S") ∧
    readStat fsC8c false "5" = readStat fsC8a false "5" :=
  ⟨claimC8.1 fsC8a "5" (mkStat3 "5" "sh" "S") (by decide) rfl,
   claimC8.2.1 fsC8b "5" (mkStat3 "5" "sh" "S") (by decide) rfl,
   claimC8.2.2 [] [] stC8 fdNone clFull clNone (some 80) (some 80) "5"⟩

/-- C9 (confirmed): `LoadTable` calls `err.Error()` unconditionally, so when
the walk completes with a nil error it dereferences a nil error value
instead of returning success, and it returns nil exactly when the walk's
final error is the non-nil one whose message is "skip this directory". -/
theorem claimC9 :
    ∀ (fs : ProcFs) (x : Bool) (c : Nat), fs.termCols = some c →
      ((walkChildren fs x (sortEnts fs.entries) []).2 = .ret none →
         (LoadTable fs x).2 = .crash nilDerefMsg) ∧
      ((LoadTable fs x).2 = .ok ↔
         (walkChildren fs x (sortEnts fs.entries) []).2 = .ret (some skipDirMsg)) := by
  intro fs x c hc
  unfold LoadTable
  rcases hw : walkChildren fs x (sortEnts fs.entries) [] with ⟨t, w⟩
  cases w with
  | crash m => simp
  | ret e =>
    rw [hc]
    cases e with
    | none => simp
    | some m => by_cases hm : m = skipDirMsg <;> simp [hm]

/-- Witness for C9: a `/proc` whose only entry is a non-matching directory
makes the walk return a nil error, and `LoadTable` crashes on the nil
dereference. -/
theorem claimC9_witness : (LoadTable fsC9 false).2 = .crash nilDerefMsg :=
  (claimC9 fsC9 false 80 rfl).1 (by decide)

/-- C10 (confirmed): the assignment loop runs over the token count, so any
record splitting into more than the struct's 54 fields makes the positional
field access go out of range - the decode crashes rather than returning. -/
theorem claimC10 :
    ∀ (fs : ProcFs) (x : Bool) (pid content : String),
      fs.stat pid = some content → numFields < (splitOnSpace content).length →
      readStat fs x pid = .crash reflectCrashMsg := by
  intro fs x pid content hs h
  unfold readStat
  rw [hs]
  simp [statBody, h]

/-- Witness for C10: a 55-token stat line crashes the decode. -/
theorem claimC10_witness : readStat fsC10 false "8" = .crash reflectCrashMsg :=
  claimC10 fsC10 false "8" content55 (by decide) (by decide)
